import Mathlib

/-!
Verification of the download-orchestration lifecycle of `yt_api.py`
(a FastAPI service that delegates media extraction to an external engine
and streams the produced file back).

Shallow embedding conventions:
* Environment variables are an `Env` record of `Option String` values;
  Python's `(os.getenv(X) or "")` is `(·.getD "")`, `.strip()` is `pyStrip` (strip whitespace from both ends,
  defined by structural recursion on the character list so that concrete
  instances evaluate inside the kernel).
* The filesystem is an association list of files (path to byte contents,
  bytes as `Nat`) plus a list of directories.  `os.path.exists` checks both.
* The opaque extraction engine (`yt_dlp`) is a parameter: given the url, the
  assembled options and the current filesystem it yields a list of files it
  writes and either the output filename or an exception message.  Generic
  Python exceptions are carried as their `str()` text; `fastapi.HTTPException`
  is the `Exc.http` constructor (the engine, being foreign code, never raises
  that type, so engine failures are plain messages).
* `tempfile.mkdtemp(dir="/tmp", ...)` is modelled by passing in the
  OS-chosen fresh name part (`suffix`); the OS contract that the fresh path
  does not already exist appears as a hypothesis where a proof needs it.
-/

deriving instance DecidableEq for Except

namespace YtApi

/-- Process environment: the three variables the service reads
(`API_KEY`, `YTDLP_COOKIES_PATH`, `YTDLP_PROXY`); `none` = unset. -/
structure Env where
  api_key : Option String
  cookies_path : Option String
  proxy : Option String
deriving Repr, DecidableEq

/-- Filesystem model: files as an association list from path to byte
contents, plus the set (list) of directories. -/
structure FS where
  files : List (String × List Nat)
  dirs : List String
deriving Repr, DecidableEq

/-- Contents of the file at `p`, if a file is there. -/
def FS.readFile? (fs : FS) (p : String) : Option (List Nat) :=
  List.lookup p fs.files

/-- Model of `os.path.exists`: true for files and directories. -/
def FS.existsPath (fs : FS) (p : String) : Bool :=
  (fs.readFile? p).isSome || fs.dirs.contains p

/-- Create or overwrite the file at `p` with contents `c`
(`shutil.copyfile` target semantics). -/
def FS.writeFile (fs : FS) (p : String) (c : List Nat) : FS :=
  { fs with files := (p, c) :: fs.files.filter (fun kv => !(kv.1 == p)) }

/-- Model of `os.remove` on a file path. -/
def FS.removeFile (fs : FS) (p : String) : FS :=
  { fs with files := fs.files.filter (fun kv => !(kv.1 == p)) }

/-- Model of `os.makedirs(p, exist_ok=True)`. -/
def FS.mkdir (fs : FS) (p : String) : FS :=
  if fs.dirs.contains p then fs else { fs with dirs := p :: fs.dirs }

/-- Exceptions visible to the request handler: `fastapi.HTTPException`
with a status code and detail, or any other Python exception carried as
its `str()` text. -/
inductive Exc where
  | http (status : Nat) (detail : String)
  | other (msg : String)
deriving Repr, DecidableEq

/-- The options dictionary `_download_sync` builds for `yt_dlp.YoutubeDL`. -/
structure YdlOpts where
  format : String
  merge_output_format : String
  outtmpl : String
  quiet : Bool
  no_warnings : Bool
  noplaylist : Bool
  cookiefile : Option String
  proxy : Option String
deriving Repr, DecidableEq

/-- The opaque extraction engine (`yt_dlp`): from the url, the options and
the current filesystem it produces the files it writes and either the
output filename (`ydl.prepare_filename(info)`) or a raised exception,
carried as its message.  Quantifying theorems over `Engine` makes them
hold for every behaviour of the external tool. -/
def Engine := String → YdlOpts → FS → List (String × List Nat) × Except String String

/-- Apply the engine's writes to the filesystem, in order. -/
def applyWrites (fs : FS) (ws : List (String × List Nat)) : FS :=
  ws.foldl (fun a kv => a.writeFile kv.1 kv.2) fs

/-- Python `str.strip()`: remove whitespace from both ends. -/
def pyStrip (s : String) : String :=
  ⟨((s.data.dropWhile Char.isWhitespace).reverse.dropWhile Char.isWhitespace).reverse⟩

/-- Model of `os.path.basename`: the part after the last slash. -/
def basename (p : String) : String :=
  ⟨(p.data.reverse.takeWhile (fun c => !(c == '/'))).reverse⟩

/-- Model of `_prepare_cookiefile_writable`: if `YTDLP_COOKIES_PATH` is unset or
blank, return `none`; if the path does not exist, raise
`FileNotFoundError`; otherwise make sure `/tmp` exists and copy the file
to `/tmp/cookies_{pid}.txt`.  (`shutil.copyfile` on a path that exists
but is not a regular file raises; that is the final branch.) -/
def _prepare_cookiefile_writable (env : Env) (pid : Nat) (fs : FS) :
    FS × Except String (Option String) :=
  let src := pyStrip (env.cookies_path.getD "")
  if src = "" then (fs, .ok none)
  else if fs.existsPath src = false then
    (fs, .error ("Cookie file not found at " ++ src))
  else
    let fs1 := fs.mkdir "/tmp"
    let dst := "/tmp/cookies_" ++ toString pid ++ ".txt"
    match fs1.readFile? src with
    | some c => (fs1.writeFile dst c, .ok (some dst))
    | none => (fs1, .error ("IsADirectoryError: " ++ src))

/-- Model of `_download_sync`: read the proxy setting, provision the cookie copy,
build the `yt_dlp` options, run the engine, and in a `finally` block
remove the cookie copy if it still exists. -/
def _download_sync (env : Env) (pid : Nat) (engine : Engine) (url tmpdir : String)
    (fs : FS) : FS × Except String String :=
  let proxy := pyStrip (env.proxy.getD "")
  match _prepare_cookiefile_writable env pid fs with
  | (fs1, .error m) => (fs1, .error m)
  | (fs1, .ok cookiefile) =>
    let ydl_opts : YdlOpts :=
      { format := "best[ext=mp4]/bestvideo[ext=mp4]+bestaudio[ext=m4a]/best"
      , merge_output_format := "mp4"
      , outtmpl := tmpdir ++ "/%(title)s.%(ext)s"
      , quiet := true
      , no_warnings := true
      , noplaylist := true
      , cookiefile := cookiefile
      , proxy := if proxy = "" then none else some proxy }
    let er := engine url ydl_opts fs1
    let fs2 := applyWrites fs1 er.1
    let fs3 := match cookiefile with
      | none => fs2
      | some cf => if fs2.existsPath cf then fs2.removeFile cf else fs2
    (fs3, er.2)

/-- Model of `_check_api_key`: if `API_KEY` trims to empty, open access; otherwise
the trimmed header must equal the trimmed key, else 401. -/
def _check_api_key (env : Env) (value : Option String) : Except Exc Unit :=
  let required := pyStrip (env.api_key.getD "")
  if required = "" then .ok ()
  else
    let got := pyStrip (value.getD "")
    if got ≠ required then .error (.http 401 "Unauthorized (invalid API key).")
    else .ok ()

/-- Response of `GET /debug-key`. -/
structure DebugKeyResponse where
  received : Bool
  received_len : Nat
  required_is_set : Bool
  required_len : Nat
  cookies_path : String
  cookies_path_is_set : Bool
  cookies_file_exists : Bool
  proxy_is_set : Bool
deriving Repr, DecidableEq

/-- Python `0 if not x_api_key else len(x_api_key)`: length of the received
header, 0 when absent or empty. -/
def recvLenOf : Option String → Nat
  | none => 0
  | some s => if s = "" then 0 else s.length

/-- Python `required.strip() != ""`: whether a key is required. -/
def reqSetOf (k : Option String) : Bool :=
  pyStrip (k.getD "") != ""

/-- Python `0 if not required else len(required.strip())`. -/
def reqLenOf (k : Option String) : Nat :=
  let required := k.getD ""
  if required = "" then 0 else (pyStrip required).length

/-- Model of the `GET /debug-key` handler: flags and lengths about the key secrets,
plus cookie-path and proxy configuration facts.  Pure in the filesystem
(read-only). -/
def debug_key (env : Env) (x_api_key : Option String) (fs : FS) : DebugKeyResponse :=
  let cookies_path := pyStrip (env.cookies_path.getD "")
  let proxy := pyStrip (env.proxy.getD "")
  { received := x_api_key.isSome
  , received_len := recvLenOf x_api_key
  , required_is_set := reqSetOf env.api_key
  , required_len := reqLenOf env.api_key
  , cookies_path := cookies_path
  , cookies_path_is_set := cookies_path != ""
  , cookies_file_exists := if cookies_path != "" then fs.existsPath cookies_path else false
  , proxy_is_set := proxy != "" }

/-- A successful `FileResponse`: HTTP 200, the file's bytes, the declared
media type and the suggested download filename. -/
structure FileResp where
  status : Nat
  body : List Nat
  media_type : String
  filename : String
deriving Repr, DecidableEq

/-- Bytes `FileResponse` streams for path `p`. -/
def fileBytes (fs : FS) (p : String) : List Nat :=
  (fs.readFile? p).getD []

/-- The `try:` block of `download_video`: make the workspace directory
(`tempfile.mkdtemp(prefix="ytdlp_", dir="/tmp")`, with the OS-chosen
unique name part passed in as `suffix`), run `_download_sync`, check the
output file exists, and build the `FileResponse`. -/
def download_video_try (env : Env) (pid : Nat) (engine : Engine) (suffix url : String)
    (fs : FS) : FS × Except Exc FileResp :=
  let tmpdir := "/tmp/ytdlp_" ++ suffix
  let fs1 := fs.mkdir tmpdir
  match _download_sync env pid engine url tmpdir fs1 with
  | (fs2, .error m) => (fs2, .error (.other m))
  | (fs2, .ok filename) =>
    if (filename == "") || !(fs2.existsPath filename) then
      (fs2, .error (.http 500 "Arquivo não encontrado após download."))
    else
      (fs2, .ok { status := 200
                , body := fileBytes fs2 filename
                , media_type := "video/mp4"
                , filename := basename filename })

/-- The `except` clauses of `download_video`: an `HTTPException` is
re-raised unchanged, any other exception becomes a 500 whose detail
interpolates the exception text. -/
def wrapErrors : FS × Except Exc FileResp → FS × Except Exc FileResp
  | (fs2, .ok v) => (fs2, .ok v)
  | (fs2, .error (.http s d)) => (fs2, .error (.http s d))
  | (fs2, .error (.other m)) => (fs2, .error (.http 500 ("Erro ao baixar o vídeo: " ++ m)))

/-- Model of the `GET /download` handler: check the API key (outside the `try`, so a
401 propagates directly), then run the guarded body. -/
def download_video (env : Env) (pid : Nat) (engine : Engine) (suffix url : String)
    (x_api_key : Option String) (fs : FS) : FS × Except Exc FileResp :=
  match _check_api_key env x_api_key with
  | .error e => (fs, .error e)
  | .ok _ => wrapErrors (download_video_try env pid engine suffix url fs)

/-- HTTP status of an outcome (0 for an unhandled non-HTTP exception,
which `download_video` never returns). -/
def statusOf : Except Exc FileResp → Nat
  | .ok r => r.status
  | .error (.http s _) => s
  | .error (.other _) => 0

/-! ### Concrete fixtures used by witnesses and counterexamples -/

/-- Empty filesystem. -/
def fs0 : FS := ⟨[], []⟩

/-- Environment with only a cookie path configured. -/
def envCk : Env := ⟨none, some "/etc/ck.txt", none⟩

/-- Filesystem holding the configured cookie file. -/
def fsCk : FS := fs0.writeFile "/etc/ck.txt" [1, 2]

/-- An engine run that writes its output file and returns its path. -/
def engineOk : Engine := fun _ _ _ => ([("/tmp/out.mp4", [9])], .ok "/tmp/out.mp4")

/-- An engine run that raises a generic exception. -/
def engineBoom : Engine := fun _ _ _ => ([], .error "boom")

/-- An engine run that reports an output path without writing the file. -/
def engineGhost : Engine := fun _ _ _ => ([], .ok "/tmp/ghost.mp4")

/-! ### Helper lemmas -/

theorem lookup_filter_self {β : Type} (p : String) (l : List (String × β)) :
    List.lookup p (l.filter (fun kv => !(kv.1 == p))) = none := by
  induction l with
  | nil => rfl
  | cons kv t ih =>
    rcases kv with ⟨k, v⟩
    by_cases h : k = p
    · subst h
      simpa [List.filter_cons] using ih
    · have hb : (k == p) = false := beq_eq_false_iff_ne.mpr h
      have hb2 : (p == k) = false := beq_eq_false_iff_ne.mpr (Ne.symm h)
      simp [List.filter_cons, hb, List.lookup_cons, hb2, ih]

theorem readFile_removeFile (fs : FS) (p : String) :
    (fs.removeFile p).readFile? p = none := by
  unfold FS.removeFile FS.readFile?
  exact lookup_filter_self p fs.files

theorem readFile_writeFile_self (fs : FS) (p : String) (c : List Nat) :
    (fs.writeFile p c).readFile? p = some c := by
  simp [FS.writeFile, FS.readFile?, List.lookup_cons]

theorem readFile_none_of_not_exists (fs : FS) (p : String)
    (h : fs.existsPath p = false) : fs.readFile? p = none := by
  unfold FS.existsPath at h
  cases ho : fs.readFile? p with
  | none => rfl
  | some c => rw [ho] at h; simp at h

theorem exists_of_readFile (fs : FS) (p : String) (c : List Nat)
    (h : fs.readFile? p = some c) : fs.existsPath p = true := by
  simp [FS.existsPath, h]

theorem exists_of_mem_dirs (fs : FS) (d : String) (h : d ∈ fs.dirs) :
    fs.existsPath d = true := by
  simp [FS.existsPath, List.contains, List.elem_iff, h]

theorem dirs_applyWrites (ws : List (String × List Nat)) :
    ∀ fs : FS, (applyWrites fs ws).dirs = fs.dirs := by
  induction ws with
  | nil => intro fs; rfl
  | cons w t ih =>
    intro fs
    have h := ih (fs.writeFile w.1 w.2)
    simp only [applyWrites, List.foldl_cons] at h ⊢
    exact h

theorem mem_dirs_mkdir (fs : FS) (p d : String) (h : d ∈ fs.dirs) :
    d ∈ (fs.mkdir p).dirs := by
  unfold FS.mkdir
  split
  · exact h
  · exact List.mem_cons_of_mem _ h

theorem self_mem_dirs_mkdir (fs : FS) (p : String) : p ∈ (fs.mkdir p).dirs := by
  unfold FS.mkdir
  split
  · next h => simpa [List.contains, List.elem_iff] using h
  · exact List.mem_cons_self _ _

theorem mem_dirs_prepare (env : Env) (pid : Nat) (fs : FS) (d : String)
    (h : d ∈ fs.dirs) :
    d ∈ (_prepare_cookiefile_writable env pid fs).1.dirs := by
  simp only [_prepare_cookiefile_writable]
  split
  · exact h
  · split
    · exact h
    · split
      · simpa [FS.writeFile] using mem_dirs_mkdir fs "/tmp" d h
      · exact mem_dirs_mkdir fs "/tmp" d h

theorem dirs_cleanup (c : Bool) (X : FS) (p : String) :
    (if c = true then X.removeFile p else X).dirs = X.dirs := by
  split <;> rfl

theorem mem_dirs_download_sync (env : Env) (pid : Nat) (engine : Engine)
    (url tmpdir : String) (fs : FS) (d : String) (h : d ∈ fs.dirs) :
    d ∈ (_download_sync env pid engine url tmpdir fs).1.dirs := by
  have hp := mem_dirs_prepare env pid fs d h
  simp only [_download_sync]
  rcases hpe : _prepare_cookiefile_writable env pid fs with ⟨fs1, r⟩
  rw [hpe] at hp
  simp only at hp
  cases r with
  | error m => simpa using hp
  | ok cookiefile =>
    cases cookiefile with
    | none => simpa [dirs_applyWrites] using hp
    | some cf =>
      rw [dirs_cleanup]
      simpa [dirs_applyWrites] using hp

theorem prepare_ok_name (env : Env) (pid : Nat) (fs : FS) (d : String)
    (h : (_prepare_cookiefile_writable env pid fs).2 = .ok (some d)) :
    d = "/tmp/cookies_" ++ toString pid ++ ".txt" := by
  simp only [_prepare_cookiefile_writable] at h
  split at h
  · simp at h
  · split at h
    · simp at h
    · split at h
      · simp at h
        exact h.symm
      · simp at h

theorem try_http_detail (env : Env) (pid : Nat) (engine : Engine)
    (suffix url : String) (fs fs2 : FS) (s : Nat) (d : String)
    (h : download_video_try env pid engine suffix url fs = (fs2, .error (.http s d))) :
    s = 500 ∧ d = "Arquivo não encontrado após download." := by
  simp only [download_video_try] at h
  rcases hsync : _download_sync env pid engine url ("/tmp/ytdlp_" ++ suffix)
      (fs.mkdir ("/tmp/ytdlp_" ++ suffix)) with ⟨fs3, r⟩
  rw [hsync] at h
  cases r with
  | error m => simp at h
  | ok fn =>
    simp only at h
    split at h
    · injection h with h1 h2
      injection h2 with h3
      injection h3 with h4 h5
      exact ⟨h4.symm, h5.symm⟩
    · simp at h

theorem try_ok_status (env : Env) (pid : Nat) (engine : Engine)
    (suffix url : String) (fs fs2 : FS) (r : FileResp)
    (h : download_video_try env pid engine suffix url fs = (fs2, .ok r)) :
    r.status = 200 := by
  simp only [download_video_try] at h
  rcases hsync : _download_sync env pid engine url ("/tmp/ytdlp_" ++ suffix)
      (fs.mkdir ("/tmp/ytdlp_" ++ suffix)) with ⟨fs3, rr⟩
  rw [hsync] at h
  cases rr with
  | error m => simp at h
  | ok fn =>
    simp only at h
    split at h
    · simp at h
    · injection h with h1 h2
      injection h2 with h3
      rw [← h3]

theorem wrap_fst (x : FS × Except Exc FileResp) : (wrapErrors x).1 = x.1 := by
  rcases x with ⟨fs2, r⟩
  cases r with
  | ok v => rfl
  | error e => cases e <;> rfl

theorem status_wrap_try_ne_401 (env : Env) (pid : Nat) (engine : Engine)
    (suffix url : String) (fs : FS) :
    statusOf (wrapErrors (download_video_try env pid engine suffix url fs)).2 ≠ 401 := by
  rcases htry : download_video_try env pid engine suffix url fs with ⟨fs2, r⟩
  cases r with
  | ok v =>
    have h200 := try_ok_status env pid engine suffix url fs fs2 v htry
    simp [wrapErrors, statusOf, h200]
  | error e =>
    cases e with
    | http s d =>
      have h500 := (try_http_detail env pid engine suffix url fs fs2 s d htry).1
      simp [wrapErrors, statusOf, h500]
    | other m => simp [wrapErrors, statusOf]

theorem tmpdir_mem_try (env : Env) (pid : Nat) (engine : Engine)
    (suffix url : String) (fs : FS) :
    ("/tmp/ytdlp_" ++ suffix) ∈ (download_video_try env pid engine suffix url fs).1.dirs := by
  have h0 : ("/tmp/ytdlp_" ++ suffix) ∈ (fs.mkdir ("/tmp/ytdlp_" ++ suffix)).dirs :=
    self_mem_dirs_mkdir fs ("/tmp/ytdlp_" ++ suffix)
  have h1 := mem_dirs_download_sync env pid engine url ("/tmp/ytdlp_" ++ suffix)
    (fs.mkdir ("/tmp/ytdlp_" ++ suffix)) ("/tmp/ytdlp_" ++ suffix) h0
  simp only [download_video_try]
  rcases hsync : _download_sync env pid engine url ("/tmp/ytdlp_" ++ suffix)
      (fs.mkdir ("/tmp/ytdlp_" ++ suffix)) with ⟨fs2, r⟩
  rw [hsync] at h1
  simp only at h1
  cases r with
  | error m => simpa using h1
  | ok fn =>
    simp only
    split
    · simpa using h1
    · simpa using h1

theorem readFile_cleanup (X : FS) (p : String) :
    (if X.existsPath p = true then X.removeFile p else X).readFile? p = none := by
  split
  · exact readFile_removeFile X p
  · next h => exact readFile_none_of_not_exists X p (by simpa using h)

/-! ### Claim theorems -/

/-- C1: for every `/download` request, when `API_KEY` is unset or trims to
empty the request is never rejected with 401, whatever the `X-API-Key`
header; when `API_KEY` trims to a non-empty string, a request whose header
is missing, empty, or differs from it after trimming both sides yields
exactly a 401 with the fixed detail message and leaves the filesystem
untouched, and a request whose header trims to an exact match proceeds to
the extraction pipeline (the guarded `try` body). -/
theorem C1_api_key_gate (env : Env) (pid : Nat) (engine : Engine)
    (suffix url : String) (key : Option String) (fs : FS) :
    (pyStrip (env.api_key.getD "") = "" →
      statusOf (download_video env pid engine suffix url key fs).2 ≠ 401)
    ∧ (pyStrip (env.api_key.getD "") ≠ "" →
        pyStrip (key.getD "") ≠ pyStrip (env.api_key.getD "") →
        download_video env pid engine suffix url key fs =
          (fs, .error (.http 401 "Unauthorized (invalid API key).")))
    ∧ (pyStrip (env.api_key.getD "") ≠ "" →
        pyStrip (key.getD "") = pyStrip (env.api_key.getD "") →
        download_video env pid engine suffix url key fs =
          wrapErrors (download_video_try env pid engine suffix url fs)) := by
  refine ⟨fun hreq => ?_, fun hreq hne => ?_, fun hreq heq => ?_⟩
  · have hk : _check_api_key env key = .ok () := by
      simp [_check_api_key, hreq]
    simp only [download_video, hk]
    exact status_wrap_try_ne_401 env pid engine suffix url fs
  · have hk : _check_api_key env key = .error (.http 401 "Unauthorized (invalid API key).") := by
      simp [_check_api_key, hreq, hne]
    simp [download_video, hk]
  · have hk : _check_api_key env key = .ok () := by
      simp [_check_api_key, hreq, heq]
    simp [download_video, hk]

/-- Witness for C1: a concrete request with a wrong key is rejected. -/
theorem C1_api_key_gate_witness :
    download_video ⟨some "k", none, none⟩ 7 engineOk "w" "u" (some "bad") fs0 =
      (fs0, .error (.http 401 "Unauthorized (invalid API key).")) :=
  (C1_api_key_gate ⟨some "k", none, none⟩ 7 engineOk "w" "u" (some "bad") fs0).2.1
    (by decide) (by decide)

/-- C2: on every exit path of `_download_sync` — engine success or any
raised exception, i.e. for every behaviour of the opaque engine — if a
credential copy was provisioned, the copy file no longer exists when the
call returns. -/
theorem C2_cookie_copy_released (env : Env) (pid : Nat) (engine : Engine)
    (url tmpdir : String) (fs : FS) (cf : String)
    (hprov : (_prepare_cookiefile_writable env pid fs).2 = .ok (some cf)) :
    (_download_sync env pid engine url tmpdir fs).1.readFile? cf = none := by
  simp only [_download_sync]
  rcases hpe : _prepare_cookiefile_writable env pid fs with ⟨fs1, r⟩
  rw [hpe] at hprov
  simp only at hprov
  subst hprov
  simp only
  exact readFile_cleanup _ cf

/-- Witness for C2: a concrete provisioned copy is gone afterwards. -/
theorem C2_cookie_copy_released_witness :
    (_download_sync envCk 7 engineOk "u" "/tmp/ytdlp_w" fsCk).1.readFile?
      "/tmp/cookies_7.txt" = none :=
  C2_cookie_copy_released envCk 7 engineOk "u" "/tmp/ytdlp_w" fsCk
    "/tmp/cookies_7.txt" (by decide)

theorem readFile_mkdir (fs : FS) (p q : String) :
    (fs.mkdir p).readFile? q = fs.readFile? q := by
  unfold FS.mkdir
  split <;> rfl

/-- C3 counterexample: the credential-copy name depends only on the
process id.  Two invocations of `_prepare_cookiefile_writable` in the same
process (pid 7) — the second on the filesystem state the first produced,
as for two concurrent requests of one process — return the SAME copy path,
so the name is not unique per invocation. -/
theorem C3_counterexample :
    (_prepare_cookiefile_writable envCk 7 fsCk).2 = .ok (some "/tmp/cookies_7.txt")
    ∧ (_prepare_cookiefile_writable envCk 7
        (_prepare_cookiefile_writable envCk 7 fsCk).1).2 =
          .ok (some "/tmp/cookies_7.txt") :=
  ⟨by decide, by decide⟩

/-- C3 (amended): two concurrent requests get distinct workspace
directories — given the `mkdtemp` OS contract that the freshly chosen path
does not exist at creation time, and because created directories persist —
but the credential-copy path is unique only per process: any two
invocations of `_prepare_cookiefile_writable` with the same pid that both
provision a copy return the same path. -/
theorem C3_amended_workspace_unique_cookie_per_process :
    (∀ (env : Env) (pid : Nat) (engine : Engine) (s1 s2 url : String)
        (key : Option String) (fs fsB : FS),
      _check_api_key env key = .ok () →
      (∀ d, d ∈ (download_video env pid engine s1 url key fs).1.dirs → d ∈ fsB.dirs) →
      fsB.existsPath ("/tmp/ytdlp_" ++ s2) = false →
      ("/tmp/ytdlp_" ++ s2) ≠ ("/tmp/ytdlp_" ++ s1))
    ∧ (∀ (env : Env) (pid : Nat) (fsA fsB : FS) (cA cB : String),
      (_prepare_cookiefile_writable env pid fsA).2 = .ok (some cA) →
      (_prepare_cookiefile_writable env pid fsB).2 = .ok (some cB) →
      cA = cB) := by
  constructor
  · intro env pid engine s1 s2 url key fs fsB hk hsub hfresh heq
    have h1 : ("/tmp/ytdlp_" ++ s1) ∈ (download_video env pid engine s1 url key fs).1.dirs := by
      simp only [download_video, hk]
      rw [wrap_fst]
      exact tmpdir_mem_try env pid engine s1 url fs
    have h3 := exists_of_mem_dirs fsB _ (hsub _ h1)
    rw [← heq] at h3
    rw [h3] at hfresh
    simp at hfresh
  · intro env pid fsA fsB cA cB hA hB
    rw [prepare_ok_name env pid fsA cA hA, prepare_ok_name env pid fsB cB hB]

/-- Witness for the amended C3 at a concrete pair of requests. -/
theorem C3_amended_witness :
    ("/tmp/ytdlp_" ++ "b") ≠ ("/tmp/ytdlp_" ++ "a")
    ∧ ("/tmp/cookies_7.txt" : String) = "/tmp/cookies_7.txt" := by
  constructor
  · exact C3_amended_workspace_unique_cookie_per_process.1 ⟨none, none, none⟩ 7 engineOk
      "a" "b" "u" none fs0
      (download_video ⟨none, none, none⟩ 7 engineOk "a" "u" none fs0).1
      (by decide) (fun d hd => hd) (by decide)
  · exact C3_amended_workspace_unique_cookie_per_process.2 envCk 7 fsCk fsCk
      "/tmp/cookies_7.txt" "/tmp/cookies_7.txt" (by decide) (by decide)

/-- C4: every successful `/download` whose extraction produced an existing
file `F` at a (necessarily non-empty) path `P` answers 200 with body
byte-identical to the contents of `F`, the media type fixed to
`video/mp4` whatever the extension of `P`, and the suggested download
filename equal to the base name of `P`. -/
theorem C4_success_response (env : Env) (pid : Nat) (engine : Engine)
    (suffix url : String) (key : Option String) (fs fs2 : FS) (p : String)
    (body : List Nat)
    (hk : _check_api_key env key = .ok ())
    (hsync : _download_sync env pid engine url ("/tmp/ytdlp_" ++ suffix)
        (fs.mkdir ("/tmp/ytdlp_" ++ suffix)) = (fs2, .ok p))
    (hne : p ≠ "")
    (hfile : fs2.readFile? p = some body) :
    download_video env pid engine suffix url key fs =
      (fs2, .ok { status := 200, body := body, media_type := "video/mp4"
                , filename := basename p }) := by
  have hex : fs2.existsPath p = true := exists_of_readFile fs2 p body hfile
  simp only [download_video, hk, download_video_try, hsync]
  simp [wrapErrors, hne, hex, fileBytes, hfile]

/-- Witness for C4 at a concrete successful request. -/
theorem C4_success_response_witness :
    download_video ⟨none, none, none⟩ 7 engineOk "w" "u" none fs0 =
      ((fs0.mkdir ("/tmp/ytdlp_" ++ "w")).writeFile "/tmp/out.mp4" [9],
        .ok { status := 200, body := [9], media_type := "video/mp4"
            , filename := basename "/tmp/out.mp4" }) :=
  C4_success_response ⟨none, none, none⟩ 7 engineOk "w" "u" none fs0
    ((fs0.mkdir ("/tmp/ytdlp_" ++ "w")).writeFile "/tmp/out.mp4" [9])
    "/tmp/out.mp4" [9] (by decide) (by decide) (by decide) (by decide)

/-- C5 counterexample: the copy name is not per-invocation: a second
invocation in the same process (pid 5), on the state left by the first,
yields the same copy path again. -/
theorem C5_counterexample :
    (_prepare_cookiefile_writable ⟨none, some "/cfg/cookies.txt", none⟩ 5
        (fs0.writeFile "/cfg/cookies.txt" [3])).2 = .ok (some "/tmp/cookies_5.txt")
    ∧ (_prepare_cookiefile_writable ⟨none, some "/cfg/cookies.txt", none⟩ 5
        (_prepare_cookiefile_writable ⟨none, some "/cfg/cookies.txt", none⟩ 5
          (fs0.writeFile "/cfg/cookies.txt" [3])).1).2 =
            .ok (some "/tmp/cookies_5.txt") :=
  ⟨by decide, by decide⟩

/-- C5 (amended): the credential provisioner returns nothing when the
configured path is unset or blank; raises the file-not-found error when
the path does not exist; and otherwise creates the scratch directory if
absent and copies the source byte-for-byte into it under the fixed
per-process name `cookies_{pid}.txt` (shared by all invocations in one
process, not unique per invocation), returning the copy path. -/
theorem C5_amended_provisioner_contract (env : Env) (pid : Nat) (fs : FS) :
    (pyStrip (env.cookies_path.getD "") = "" →
      _prepare_cookiefile_writable env pid fs = (fs, .ok none))
    ∧ (pyStrip (env.cookies_path.getD "") ≠ "" →
        fs.existsPath (pyStrip (env.cookies_path.getD "")) = false →
        _prepare_cookiefile_writable env pid fs =
          (fs, .error ("Cookie file not found at " ++ pyStrip (env.cookies_path.getD ""))))
    ∧ (∀ c : List Nat, pyStrip (env.cookies_path.getD "") ≠ "" →
        fs.readFile? (pyStrip (env.cookies_path.getD "")) = some c →
        _prepare_cookiefile_writable env pid fs =
          ((fs.mkdir "/tmp").writeFile ("/tmp/cookies_" ++ toString pid ++ ".txt") c,
            .ok (some ("/tmp/cookies_" ++ toString pid ++ ".txt")))
          ∧ ((fs.mkdir "/tmp").writeFile ("/tmp/cookies_" ++ toString pid ++ ".txt") c).readFile?
              ("/tmp/cookies_" ++ toString pid ++ ".txt") = some c
          ∧ "/tmp" ∈ ((fs.mkdir "/tmp").writeFile
              ("/tmp/cookies_" ++ toString pid ++ ".txt") c).dirs) := by
  refine ⟨fun h0 => ?_, fun h0 hne => ?_, fun c h0 hfile => ?_⟩
  · simp [_prepare_cookiefile_writable, h0]
  · simp [_prepare_cookiefile_writable, h0, hne]
  · have hex : fs.existsPath (pyStrip (env.cookies_path.getD "")) = true :=
      exists_of_readFile _ _ _ hfile
    have hfile1 : (fs.mkdir "/tmp").readFile? (pyStrip (env.cookies_path.getD "")) = some c := by
      rw [readFile_mkdir]; exact hfile
    refine ⟨?_, readFile_writeFile_self _ _ _, ?_⟩
    · simp [_prepare_cookiefile_writable, h0, hex, hfile1]
    · simpa [FS.writeFile] using self_mem_dirs_mkdir fs "/tmp"

/-- Witness for the amended C5 at a concrete provisioning call. -/
theorem C5_amended_witness :
    _prepare_cookiefile_writable envCk 9 fsCk =
      ((fsCk.mkdir "/tmp").writeFile ("/tmp/cookies_" ++ toString 9 ++ ".txt") [1, 2],
        .ok (some ("/tmp/cookies_" ++ toString 9 ++ ".txt"))) :=
  ((C5_amended_provisioner_contract envCk 9 fsCk).2.2 [1, 2] (by decide) (by decide)).1

/-- C6: an exception that already carries a structured HTTP status — the
401 from the key check, raised before the `try`, or any `HTTPException`
raised inside it such as the missing-output 500 — propagates to the caller
unchanged, while every other exception raised during extraction or
streaming is converted into a 500 whose detail interpolates the raw
exception text. -/
theorem C6_exception_policy (env : Env) (pid : Nat) (engine : Engine)
    (suffix url : String) (key : Option String) (fs : FS) :
    (∀ e, _check_api_key env key = .error e →
      download_video env pid engine suffix url key fs = (fs, .error e))
    ∧ (∀ (fs2 : FS) (s : Nat) (d : String), _check_api_key env key = .ok () →
        download_video_try env pid engine suffix url fs = (fs2, .error (.http s d)) →
        download_video env pid engine suffix url key fs = (fs2, .error (.http s d)))
    ∧ (∀ (fs2 : FS) (m : String), _check_api_key env key = .ok () →
        download_video_try env pid engine suffix url fs = (fs2, .error (.other m)) →
        download_video env pid engine suffix url key fs =
          (fs2, .error (.http 500 ("Erro ao baixar o vídeo: " ++ m)))) := by
  refine ⟨fun e hk => ?_, fun fs2 s d hk htry => ?_, fun fs2 m hk htry => ?_⟩
  · simp [download_video, hk]
  · simp [download_video, hk, htry, wrapErrors]
  · simp [download_video, hk, htry, wrapErrors]

/-- Witness for C6: a concrete engine failure surfaces as the wrapped 500. -/
theorem C6_exception_policy_witness :
    download_video ⟨none, none, none⟩ 7 engineBoom "w" "u" none fs0 =
      (fs0.mkdir ("/tmp/ytdlp_" ++ "w"),
        .error (.http 500 ("Erro ao baixar o vídeo: " ++ "boom"))) :=
  (C6_exception_policy ⟨none, none, none⟩ 7 engineBoom "w" "u" none fs0).2.2
    (fs0.mkdir ("/tmp/ytdlp_" ++ "w")) "boom" (by decide) (by decide)

/-- C7: when the extraction step returns a path that is empty or does not
reference an existing file, the handler answers the 500 with the fixed
message, and no `FileResponse` is produced (the outcome is that error, so
streaming is not attempted). -/
theorem C7_missing_output_500 (env : Env) (pid : Nat) (engine : Engine)
    (suffix url : String) (key : Option String) (fs fs2 : FS) (p : String)
    (hk : _check_api_key env key = .ok ())
    (hsync : _download_sync env pid engine url ("/tmp/ytdlp_" ++ suffix)
        (fs.mkdir ("/tmp/ytdlp_" ++ suffix)) = (fs2, .ok p))
    (hbad : p = "" ∨ fs2.existsPath p = false) :
    download_video env pid engine suffix url key fs =
      (fs2, .error (.http 500 "Arquivo não encontrado após download.")) := by
  simp only [download_video, hk, download_video_try, hsync]
  rcases hbad with hb | hb
  · simp [wrapErrors, hb]
  · simp [wrapErrors, hb]

/-- Witness for C7: an engine that reports an unwritten output file. -/
theorem C7_missing_output_500_witness :
    download_video ⟨none, none, none⟩ 7 engineGhost "w" "u" none fs0 =
      (fs0.mkdir ("/tmp/ytdlp_" ++ "w"),
        .error (.http 500 "Arquivo não encontrado após download.")) :=
  C7_missing_output_500 ⟨none, none, none⟩ 7 engineGhost "w" "u" none fs0
    (fs0.mkdir ("/tmp/ytdlp_" ++ "w")) "/tmp/ghost.mp4" (by decide) (by decide)
    (Or.inr (by decide))

/-- C8: the `/debug-key` response depends on the two secrets — the
`API_KEY` value and the received `X-API-Key` header — only through the
presence flags and lengths it reports: changing either secret while
keeping those observations fixed leaves the entire response unchanged, so
the literal secret values never appear in it.  (The model is also
manifestly read-only: it takes the filesystem and returns only a
response.) -/
theorem C8_debug_key_no_secret_leak (fs : FS) (k1 k2 h1 h2 cp px : Option String)
    (hrecv : h1.isSome = h2.isSome)
    (hrlen : recvLenOf h1 = recvLenOf h2)
    (hset : reqSetOf k1 = reqSetOf k2)
    (hqlen : reqLenOf k1 = reqLenOf k2) :
    debug_key ⟨k1, cp, px⟩ h1 fs = debug_key ⟨k2, cp, px⟩ h2 fs := by
  simp only [debug_key]
  rw [hrecv, hrlen, hset, hqlen]

/-- Witness for C8: two different secrets with equal observations give
byte-identical responses. -/
theorem C8_debug_key_no_secret_leak_witness :
    debug_key ⟨some "secretA", some "/etc/ck.txt", none⟩ (some "aaa") fs0 =
      debug_key ⟨some "secretB", some "/etc/ck.txt", none⟩ (some "bbb") fs0 :=
  C8_debug_key_no_secret_leak fs0 (some "secretA") (some "secretB") (some "aaa")
    (some "bbb") (some "/etc/ck.txt") none rfl (by decide) (by decide) (by decide)

/-- C9: once a request passes the key check and creates its workspace
directory, the handler never deletes it: the directory is still present in
the filesystem returned with the response, for every engine behaviour
(success or failure). -/
theorem C9_workspace_persists (env : Env) (pid : Nat) (engine : Engine)
    (suffix url : String) (key : Option String) (fs : FS)
    (hk : _check_api_key env key = .ok ()) :
    ("/tmp/ytdlp_" ++ suffix) ∈ (download_video env pid engine suffix url key fs).1.dirs := by
  simp only [download_video, hk]
  rw [wrap_fst]
  exact tmpdir_mem_try env pid engine suffix url fs

/-- Witness for C9: the workspace survives a failing request. -/
theorem C9_workspace_persists_witness :
    ("/tmp/ytdlp_" ++ "w") ∈
      (download_video ⟨none, none, none⟩ 7 engineBoom "w" "u" none fs0).1.dirs :=
  C9_workspace_persists ⟨none, none, none⟩ 7 engineBoom "w" "u" none fs0 (by decide)

/-- C10: a request rejected with 401 has no filesystem effect: the 401 can
only come from the key check, which runs strictly before workspace
creation and credential provisioning, so the filesystem returned with the
rejection is exactly the input one. -/
theorem C10_unauthorized_no_fs_effect (env : Env) (pid : Nat) (engine : Engine)
    (suffix url : String) (key : Option String) (fs fs2 : FS) (d : String)
    (h : download_video env pid engine suffix url key fs = (fs2, .error (.http 401 d))) :
    fs2 = fs := by
  cases hk : _check_api_key env key with
  | error e =>
    simp only [download_video, hk] at h
    injection h with h1 h2
    exact h1.symm
  | ok u =>
    exfalso
    have hne := status_wrap_try_ne_401 env pid engine suffix url fs
    simp only [download_video, hk] at h
    rw [h] at hne
    exact hne rfl

/-- Witness for C10: a concrete rejected request returns the input
filesystem untouched. -/
theorem C10_unauthorized_no_fs_effect_witness :
    (download_video ⟨some "k", none, none⟩ 7 engineOk "w" "u" none fs0).1 = fs0 :=
  C10_unauthorized_no_fs_effect ⟨some "k", none, none⟩ 7 engineOk "w" "u" none fs0
    (download_video ⟨some "k", none, none⟩ 7 engineOk "w" "u" none fs0).1
    "Unauthorized (invalid API key)." (by decide)

end YtApi
